import Mathlib

/-!
Shallow embedding of `flake8_multiline_equals/checker.py`.

The Python module defines a flake8 plugin enforcing spacing around the
assignment symbol of named arguments in function calls:
  * `MNA001` for a multiline call whose named argument lacks a space before
    or after its assignment symbol;
  * `MNA002` for a single-line call whose named argument has a space before
    or after its assignment symbol.

The embedding below translates the data the checker consumes (tokenize
tokens, the relevant slice of AST call nodes) and its functions
(`_find_equals_for_keyword`, `_check_call`, the visitor traversal, and the
plugin entry point) into executable Lean definitions.  Machine integers do
not occur: all source positions are small non-negative integers, embedded
as `Nat`, and the one absolute difference in the source is computed through
`Int` exactly as Python's `abs(a - b)`.
-/

/-- Token kinds the checker branches on (`tokenize.NAME`, `tokenize.OP`,
`tokenize.NL`, `tokenize.NEWLINE`, `tokenize.INDENT`, `tokenize.DEDENT`,
`tokenize.COMMENT`), plus kinds that occur in token streams without being
inspected by name (`NUMBER`, `STRING`, `ENDMARKER`). -/
inductive TokKind where
  | NAME
  | OP
  | NL
  | NEWLINE
  | INDENT
  | DEDENT
  | COMMENT
  | NUMBER
  | STRING
  | ENDMARKER
deriving DecidableEq, Repr

/-- Embedding of `tokenize.TokenInfo`: kind, text, start `(line, col)` and
end `(line, col)`.  Lines are 1-based, columns 0-based, as in CPython. -/
structure Token where
  kind : TokKind
  string : String
  startPos : Nat × Nat
  endPos : Nat × Nat
deriving DecidableEq, Repr

/-- `LINE_SEARCH_TOLERANCE = 1` from the source. -/
def LINE_SEARCH_TOLERANCE : Nat := 1

/-- `MAX_TOKEN_LOOKAHEAD = 3` from the source. -/
def MAX_TOKEN_LOOKAHEAD : Nat := 3

/-- Embedding of the `EqualsTokenInfo` dataclass. -/
structure EqualsTokenInfo where
  line : Nat
  col : Nat
  has_space_before : Bool
  has_space_after : Bool
deriving DecidableEq, Repr

/-- Embedding of `ast.keyword`: `arg` is `none` for `**kwargs` expansion
entries; `value_lineno` embeds `keyword.value.lineno`, the line on which
the argument's value expression starts. -/
structure Keyword where
  arg : Option String
  value_lineno : Nat
deriving DecidableEq, Repr

/-- The slice of `ast.Call` the checker reads: `node.lineno`,
`node.end_lineno` and `node.keywords`. -/
structure CallNode where
  lineno : Nat
  end_lineno : Nat
  keywords : List Keyword
deriving DecidableEq, Repr

/-- One reported violation: `(line, col, message)`.  The fourth component of
the Python tuple, `type(self)`, is the constant checker class and carries no
information, so it is omitted. -/
structure Finding where
  line : Nat
  col : Nat
  msg : String
deriving DecidableEq, Repr

/-- The exact `MNA001` message string from `_check_call`. -/
def mna001_message : String := "MNA001 missing spaces around '=' in multiline function call"

/-- The exact `MNA002` message string from `_check_call`. -/
def mna002_message : String := "MNA002 unexpected spaces around '=' in single-line function call"

/-- The kinds skipped in the lookahead loop of `_find_equals_for_keyword`:
`(tokenize.NL, tokenize.NEWLINE, tokenize.INDENT, tokenize.DEDENT,
tokenize.COMMENT)`. -/
def isInsignificant (k : TokKind) : Bool :=
  decide (k = TokKind.NL ∨ k = TokKind.NEWLINE ∨ k = TokKind.INDENT ∨
    k = TokKind.DEDENT ∨ k = TokKind.COMMENT)

/-- The comparison-operator guard of `_find_equals_for_keyword`: the token
at index `j` has been matched as `=`, and the token at `j + 1` (when it
exists) is an operator whose text is one of `'='`, `'!'`, `'<'`, `'>'`. -/
def isComparisonContinuation (tokens : List Token) (j : Nat) : Bool :=
  match tokens[j + 1]? with
  | some after_eq =>
      decide (after_eq.kind = TokKind.OP ∧ (after_eq.string = "=" ∨
        after_eq.string = "!" ∨ after_eq.string = "<" ∨ after_eq.string = ">"))
  | none => false

/-- The `has_space_after` computation of `_find_equals_for_keyword`, for the
assignment symbol `eqTok` found at index `j`: it stays `False` when no token
follows or the following token is a `NEWLINE`/`NL`, and otherwise compares
the symbol's end position with the following token's start position. -/
def codeHasSpaceAfter (tokens : List Token) (j : Nat) (eqTok : Token) : Bool :=
  match tokens[j + 1]? with
  | some after_tok =>
      if after_tok.kind = TokKind.NEWLINE ∨ after_tok.kind = TokKind.NL then false
      else decide (eqTok.endPos ≠ after_tok.startPos)
  | none => false

/-- The scan condition of the outer loop of `_find_equals_for_keyword`:
`token.type == tokenize.NAME and token.string == keyword_name and
abs(token.start[0] - target_line) <= LINE_SEARCH_TOLERANCE`. -/
def nameMatches (name : String) (target_line : Nat) (tok : Token) : Bool :=
  decide (tok.kind = TokKind.NAME ∧ tok.string = name ∧
    ((tok.startPos.1 : Int) - (target_line : Int)).natAbs ≤ LINE_SEARCH_TOLERANCE)

/-- The inner lookahead loop of `_find_equals_for_keyword`, written with an
explicit iteration count: `lookaheadAux tokens nameTok c j` runs the loop
body at indices `j, j + 1, ...` for at most `c` iterations.  Each iteration
skips insignificant tokens, accepts an `=` operator that is not a
comparison continuation (computing both spacing booleans), and breaks on
any other token.  Running out of tokens can only happen past the range the
caller supplies, where the Python loop would already have stopped. -/
def lookaheadAux (tokens : List Token) (nameTok : Token) : Nat → Nat → Option EqualsTokenInfo
  | 0, _ => none
  | c + 1, j =>
    match tokens[j]? with
    | none => none
    | some next_tok =>
      if isInsignificant next_tok.kind then
        lookaheadAux tokens nameTok c (j + 1)
      else if next_tok.kind = TokKind.OP ∧ next_tok.string = "=" then
        if isComparisonContinuation tokens j then none
        else
          some { line := next_tok.startPos.1
                 col := next_tok.startPos.2
                 has_space_before := decide (nameTok.endPos ≠ next_tok.startPos)
                 has_space_after := codeHasSpaceAfter tokens j next_tok }
      else none

/-- The inner loop `for j in range(i + 1, min(i + MAX_TOKEN_LOOKAHEAD,
len(self.file_tokens)))`, with `j` starting at `i + 1` and `stop` the
exclusive bound: the iteration count is `stop - j`. -/
def lookaheadFrom (tokens : List Token) (nameTok : Token) (j stop : Nat) :
    Option EqualsTokenInfo :=
  lookaheadAux tokens nameTok (stop - j) j

/-- The outer loop `for i, token in enumerate(self.file_tokens)`, written
with an explicit iteration count; on a name match whose lookahead fails
(break or no `=` within the window) the scan continues at `i + 1`. -/
def scanAux (tokens : List Token) (name : String) (target : Nat) :
    Nat → Nat → Option EqualsTokenInfo
  | 0, _ => none
  | c + 1, i =>
    match tokens[i]? with
    | none => none
    | some tok =>
      if nameMatches name target tok then
        match lookaheadFrom tokens tok (i + 1) (min (i + MAX_TOKEN_LOOKAHEAD) tokens.length) with
        | some info => some info
        | none => scanAux tokens name target c (i + 1)
      else scanAux tokens name target c (i + 1)

/-- Embedding of `MultilineNamedArgsChecker._find_equals_for_keyword`.
`if not keyword_name: return None` rejects both a missing name and the
empty string; `target_line` is `keyword.value.lineno`. -/
def _find_equals_for_keyword (tokens : List Token) (kw : Keyword) :
    Option EqualsTokenInfo :=
  match kw.arg with
  | none => none
  | some keyword_name =>
    if keyword_name = "" then none
    else scanAux tokens keyword_name kw.value_lineno tokens.length 0

/-- `node.lineno != node.end_lineno` from `_check_call`. -/
def isMultiline (node : CallNode) : Bool := node.lineno != node.end_lineno

/-- The body of the per-keyword loop of `_check_call`: the at-most-one
finding contributed by one keyword argument.  `**kwargs` entries
(`keyword.arg is None`) are skipped, as are keywords whose assignment
symbol cannot be located. -/
def check_keyword (tokens : List Token) (is_multiline : Bool) (kw : Keyword) :
    Option Finding :=
  match kw.arg with
  | none => none
  | some _ =>
    match _find_equals_for_keyword tokens kw with
    | none => none
    | some equals_info =>
      if is_multiline then
        if !equals_info.has_space_before || !equals_info.has_space_after then
          some { line := equals_info.line, col := equals_info.col, msg := mna001_message }
        else none
      else
        if equals_info.has_space_before || equals_info.has_space_after then
          some { line := equals_info.line, col := equals_info.col, msg := mna002_message }
        else none

/-- The per-keyword loop of `_check_call`: errors are appended in keyword
order, at most one per keyword. -/
def checkKeywords (tokens : List Token) (is_multiline : Bool) : List Keyword → List Finding
  | [] => []
  | kw :: rest =>
    (match check_keyword tokens is_multiline kw with
     | some f => [f]
     | none => []) ++ checkKeywords tokens is_multiline rest

/-- Embedding of `MultilineNamedArgsChecker._check_call`. -/
def _check_call (tokens : List Token) (node : CallNode) : List Finding :=
  if node.keywords.isEmpty then []
  else checkKeywords tokens (isMultiline node) node.keywords

/-- The AST as the visitor sees it: `call` nodes carry the fields
`_check_call` reads plus their child nodes (argument values, nested calls);
`other` is any non-`Call` node with its children.  `ast.NodeVisitor.visit`
with `visit_Call` calling `generic_visit` is a pre-order traversal. -/
inductive Node where
  | call (node : CallNode) (children : List Node) : Node
  | other (children : List Node) : Node
deriving Repr

mutual

/-- `visit` on one node: `visit_Call` runs `_check_call` (appending its
findings) and then `generic_visit` recurses into the children. -/
def visitNode (tokens : List Token) : Node → List Finding
  | Node.call c cs => _check_call tokens c ++ visitList tokens cs
  | Node.other cs => visitList tokens cs

/-- `generic_visit`: visit children left to right. -/
def visitList (tokens : List Token) : List Node → List Finding
  | [] => []
  | n :: ns => visitNode tokens n ++ visitList tokens ns

end

/-- The mutable state of a `MultilineNamedArgsChecker` instance: its inputs
and the `self.errors` accumulator. -/
structure CheckerState where
  tree : Node
  file_tokens : List Token
  errors : List Finding
deriving Repr

/-- `MultilineNamedArgsChecker.__init__`: `self.errors = []`. -/
def checkerInit (tree : Node) (file_tokens : List Token) : CheckerState :=
  { tree := tree, file_tokens := file_tokens, errors := [] }

/-- `MultilineNamedArgsChecker.run`, consumed to completion: `visit`
appends onto `self.errors`, then the generator yields every accumulated
error.  The produced list and the post-state are both returned to make the
statefulness of the Python object explicit. -/
def checkerRun (s : CheckerState) : List Finding × CheckerState :=
  let s2 : CheckerState :=
    { s with errors := s.errors ++ visitNode s.file_tokens s.tree }
  (s2.errors, s2)

/-- The outcome of `tokenize.generate_tokens` on the file's joined lines,
as the plugin's `__init__` distinguishes it: success, `tokenize.TokenError`,
or any other exception. -/
inductive TokenizeOutcome where
  | success (toks : List Token)
  | tokenError
  | unexpectedError
deriving Repr

/-- The `try/except` of `MultilineNamedArgsCheckerPlugin.__init__`: both
`except` clauses set `self.file_tokens = []`. -/
def pluginFileTokens : TokenizeOutcome → List Token
  | TokenizeOutcome.success toks => toks
  | TokenizeOutcome.tokenError => []
  | TokenizeOutcome.unexpectedError => []

/-- The plugin object's state after `__init__` (the filename and raw lines
are stored but never read by the checking logic). -/
structure PluginState where
  tree : Node
  file_tokens : List Token
deriving Repr

/-- `MultilineNamedArgsCheckerPlugin.__init__`. -/
def pluginInit (tree : Node) (outcome : TokenizeOutcome) : PluginState :=
  { tree := tree, file_tokens := pluginFileTokens outcome }

/-- `MultilineNamedArgsCheckerPlugin.run`, consumed to completion: with no
tokens it yields nothing; otherwise it constructs a fresh checker (whose
`errors` starts empty) and yields that checker's findings. -/
def pluginRun (p : PluginState) : List Finding :=
  if p.file_tokens.isEmpty then []
  else (checkerRun (checkerInit p.tree p.file_tokens)).1

/-- Two successive calls of `MultilineNamedArgsCheckerPlugin.run` on the
same plugin object; each call constructs its own fresh checker, per the
source of `run`. -/
def pluginRunTwice (p : PluginState) : List Finding × List Finding :=
  (pluginRun p, pluginRun p)

/-! ## Claim-side vocabulary

Definitions used to state the claims: eligibility of a scan start, the
lookahead launched from a start, the first eligible start, and the next
significant token — the latter two spelled from the specification's own
wording so that the code's scan can be compared against it. -/

/-- A scan start `k` is eligible when the token at `k` satisfies the outer
loop's name-match condition. -/
def eligibleStart (tokens : List Token) (name : String) (target : Nat) (k : Nat) : Bool :=
  match tokens[k]? with
  | some tok => nameMatches name target tok
  | none => false

/-- The bounded lookahead launched from scan start `k`, exactly as the
outer loop launches it. -/
def lookFrom (tokens : List Token) (k : Nat) : Option EqualsTokenInfo :=
  match tokens[k]? with
  | some tok => lookaheadFrom tokens tok (k + 1) (min (k + MAX_TOKEN_LOOKAHEAD) tokens.length)
  | none => none

/-- Whether the token at index `k` is insignificant (or absent): the
condition under which the lookahead loop skips index `k`. -/
def skipAt (tokens : List Token) (k : Nat) : Bool :=
  match tokens[k]? with
  | some t => isInsignificant t.kind
  | none => true

/-- The first eligible scan start, in token order — the "first token in
token order that is a name token whose text equals the argument's name and
whose start line is within one line of the target line" of the claim. -/
def firstEligible (tokens : List Token) (name : String) (target : Nat) : Option Nat :=
  (List.range tokens.length).find? (fun k => eligibleStart tokens name target k)

/-- The index of the next significant token strictly after index `i` — the
claim's "very next significant token (skipping line breaks, logical
newlines, indentation markers, and comments)". -/
def nextSignificantIdx (tokens : List Token) (i : Nat) : Option Nat :=
  (List.range tokens.length).find? (fun k =>
    decide (i < k) && (match tokens[k]? with
      | some t => !(isInsignificant t.kind)
      | none => false))

/-- The claim's reading of the `has_space_after` computation for the
assignment symbol `eqTok` found at index `j`: false when a logical line
end (or nothing) immediately follows the symbol, and otherwise true iff
the symbol's end position differs from the start position of the next
significant, non-terminating token in the sequence. -/
def claimedHasSpaceAfter (tokens : List Token) (j : Nat) (eqTok : Token) : Bool :=
  match tokens[j + 1]? with
  | none => false
  | some t =>
    if t.kind = TokKind.NEWLINE ∨ t.kind = TokKind.NL then false
    else
      match nextSignificantIdx tokens j with
      | some k =>
        match tokens[k]? with
        | some t2 => decide (eqTok.endPos ≠ t2.startPos)
        | none => false
      | none => false

/-! ## Concrete token streams and call nodes

Each example is the token stream CPython's `tokenize` produces for the
displayed source, with the call node's fields as `ast.parse` reports them. -/

/-- Build a token from kind, text and the four position numbers. -/
def mkTok (k : TokKind) (s : String) (l1 c1 l2 c2 : Nat) : Token :=
  { kind := k, string := s, startPos := (l1, c1), endPos := (l2, c2) }

/-- Tokens of the multiline call `foo(\n    a=1,\n    b = 2,\n)`. -/
def exTokens1 : List Token :=
  [ mkTok TokKind.NAME "foo" 1 0 1 3, mkTok TokKind.OP "(" 1 3 1 4,
    mkTok TokKind.NL "" 1 4 1 5,
    mkTok TokKind.NAME "a" 2 4 2 5, mkTok TokKind.OP "=" 2 5 2 6,
    mkTok TokKind.NUMBER "1" 2 6 2 7, mkTok TokKind.OP "," 2 7 2 8,
    mkTok TokKind.NL "" 2 8 2 9,
    mkTok TokKind.NAME "b" 3 4 3 5, mkTok TokKind.OP "=" 3 6 3 7,
    mkTok TokKind.NUMBER "2" 3 8 3 9, mkTok TokKind.OP "," 3 9 3 10,
    mkTok TokKind.NL "" 3 10 3 11,
    mkTok TokKind.OP ")" 4 0 4 1, mkTok TokKind.NEWLINE "" 4 1 4 2,
    mkTok TokKind.ENDMARKER "" 5 0 5 0 ]

/-- The call node of `foo(\n    a=1,\n    b = 2,\n)`. -/
def exNode1 : CallNode :=
  { lineno := 1, end_lineno := 4
    keywords := [{ arg := some "a", value_lineno := 2 }, { arg := some "b", value_lineno := 3 }] }

/-- Tokens of the single-line call `foo(a = 1, b=2)`. -/
def exTokens2 : List Token :=
  [ mkTok TokKind.NAME "foo" 1 0 1 3, mkTok TokKind.OP "(" 1 3 1 4,
    mkTok TokKind.NAME "a" 1 4 1 5, mkTok TokKind.OP "=" 1 6 1 7,
    mkTok TokKind.NUMBER "1" 1 8 1 9, mkTok TokKind.OP "," 1 9 1 10,
    mkTok TokKind.NAME "b" 1 11 1 12, mkTok TokKind.OP "=" 1 12 1 13,
    mkTok TokKind.NUMBER "2" 1 13 1 14, mkTok TokKind.OP ")" 1 14 1 15,
    mkTok TokKind.NEWLINE "" 1 15 1 16, mkTok TokKind.ENDMARKER "" 2 0 2 0 ]

/-- The call node of `foo(a = 1, b=2)`. -/
def exNode2 : CallNode :=
  { lineno := 1, end_lineno := 1
    keywords := [{ arg := some "a", value_lineno := 1 }, { arg := some "b", value_lineno := 1 }] }

/-- Tokens of the single-line call `f(x, x = 1)`: the name `x` occurs first
as a positional argument and then as a keyword name. -/
def c7Tokens : List Token :=
  [ mkTok TokKind.NAME "f" 1 0 1 1, mkTok TokKind.OP "(" 1 1 1 2,
    mkTok TokKind.NAME "x" 1 2 1 3, mkTok TokKind.OP "," 1 3 1 4,
    mkTok TokKind.NAME "x" 1 5 1 6, mkTok TokKind.OP "=" 1 7 1 8,
    mkTok TokKind.NUMBER "1" 1 9 1 10, mkTok TokKind.OP ")" 1 10 1 11,
    mkTok TokKind.NEWLINE "" 1 11 1 12, mkTok TokKind.ENDMARKER "" 2 0 2 0 ]

/-- Tokens of the multiline call `foo(\n    a =#c\n    1)`: a comment
abuts the assignment symbol and the value starts on the next line. -/
def c8Tokens : List Token :=
  [ mkTok TokKind.NAME "foo" 1 0 1 3, mkTok TokKind.OP "(" 1 3 1 4,
    mkTok TokKind.NL "" 1 4 1 5,
    mkTok TokKind.NAME "a" 2 4 2 5, mkTok TokKind.OP "=" 2 6 2 7,
    mkTok TokKind.COMMENT "#c" 2 7 2 9, mkTok TokKind.NL "" 2 9 2 10,
    mkTok TokKind.NUMBER "1" 3 4 3 5, mkTok TokKind.OP ")" 3 5 3 6,
    mkTok TokKind.NEWLINE "" 3 6 3 7, mkTok TokKind.ENDMARKER "" 4 0 4 0 ]

/-- The assignment-symbol token of `c8Tokens` (index 4). -/
def c8EqTok : Token := mkTok TokKind.OP "=" 2 6 2 7

/-- Tokens containing `a` followed by two `=` operator tokens: the guard
against a comparison continuation fires at index 2. -/
def c9Tokens : List Token :=
  [ mkTok TokKind.NAME "a" 1 0 1 1, mkTok TokKind.OP "=" 1 1 1 2,
    mkTok TokKind.OP "=" 1 2 1 3, mkTok TokKind.NAME "b" 1 4 1 5,
    mkTok TokKind.NEWLINE "" 1 5 1 6, mkTok TokKind.ENDMARKER "" 2 0 2 0 ]

/-- Tokens where a comment and a line break separate the name `a` from its
`=`: two insignificant tokens fill the whole lookahead window. -/
def c10Tokens : List Token :=
  [ mkTok TokKind.NAME "a" 1 0 1 1, mkTok TokKind.COMMENT "#x" 1 2 1 4,
    mkTok TokKind.NL "" 1 4 1 5, mkTok TokKind.OP "=" 2 0 2 1,
    mkTok TokKind.NUMBER "1" 2 2 2 3 ]

/-! ## Helper lemmas -/

/-- The per-keyword loop appends exactly the non-`none` per-keyword
contributions, in keyword order. -/
theorem checkKeywords_eq_filterMap (tokens : List Token) (m : Bool) (l : List Keyword) :
    checkKeywords tokens m l = l.filterMap (check_keyword tokens m) := by
  induction l with
  | nil => rfl
  | cons kw rest ih =>
    cases h : check_keyword tokens m kw <;>
      simp [checkKeywords, List.filterMap_cons, h, ih]

/-- `_check_call` is the keyword-wise filter-map of the per-keyword check
(the early return on an empty keyword list changes nothing). -/
theorem check_call_eq_filterMap (tokens : List Token) (node : CallNode) :
    _check_call tokens node =
      node.keywords.filterMap (check_keyword tokens (isMultiline node)) := by
  unfold _check_call
  cases hk : node.keywords with
  | nil => simp
  | cons kw rest => simp [checkKeywords_eq_filterMap]

/-- Indexing past a missing index stays missing. -/
theorem getElem?_none_of_le {α : Type} (l : List α) {i k : Nat}
    (h : l[i]? = none) (hik : i ≤ k) : l[k]? = none :=
  List.getElem?_eq_none (le_trans (List.getElem?_eq_none_iff.mp h) hik)

/-- No scan start past the end of the token list is eligible. -/
theorem eligibleStart_false_of_ge (tokens : List Token) (name : String) (target : Nat)
    {k : Nat} (h : tokens.length ≤ k) :
    eligibleStart tokens name target k = false := by
  simp [eligibleStart, List.getElem?_eq_none h]

/-- The outer scan returns `none` within its window iff the lookahead of
every eligible start in the window fails. -/
theorem scanAux_none_iff (tokens : List Token) (name : String) (target : Nat) :
    ∀ (c i : Nat), (scanAux tokens name target c i = none ↔
      ∀ k, i ≤ k → k < i + c → eligibleStart tokens name target k = true →
        lookFrom tokens k = none) := by
  intro c
  induction c with
  | zero =>
    intro i
    constructor
    · intro _ k h1 h2 _
      omega
    · intro _
      rfl
  | succ c ih =>
    intro i
    cases htok : tokens[i]? with
    | none =>
      constructor
      · intro _ k h1 _ helig
        rw [eligibleStart_false_of_ge tokens name target
          (le_trans (List.getElem?_eq_none_iff.mp htok) h1)] at helig
        simp at helig
      · intro _
        simp [scanAux, htok]
    | some tok =>
      have hlf : lookFrom tokens i =
          lookaheadFrom tokens tok (i + 1) (min (i + MAX_TOKEN_LOOKAHEAD) tokens.length) := by
        simp [lookFrom, htok]
      cases hm : nameMatches name target tok with
      | true =>
        have helig : eligibleStart tokens name target i = true := by
          simp [eligibleStart, htok, hm]
        cases hl : lookaheadFrom tokens tok (i + 1) (min (i + MAX_TOKEN_LOOKAHEAD) tokens.length) with
        | some info =>
          have hscan : scanAux tokens name target (c + 1) i = some info := by
            simp [scanAux, htok, hm, hl]
          rw [hscan]
          constructor
          · intro h
            simp at h
          · intro hall
            have hcontra := hall i le_rfl (by omega) helig
            rw [hlf, hl] at hcontra
            simp at hcontra
        | none =>
          have hscan : scanAux tokens name target (c + 1) i =
              scanAux tokens name target c (i + 1) := by
            simp [scanAux, htok, hm, hl]
          rw [hscan, ih (i + 1)]
          constructor
          · intro h k h1 h2 helig2
            rcases Nat.eq_or_lt_of_le h1 with heq | hlt
            · subst heq
              rw [hlf, hl]
            · exact h k hlt (by omega) helig2
          · intro h k h1 h2 helig2
            exact h k (by omega) (by omega) helig2
      | false =>
        have hscan : scanAux tokens name target (c + 1) i =
            scanAux tokens name target c (i + 1) := by
          simp [scanAux, htok, hm]
        rw [hscan, ih (i + 1)]
        constructor
        · intro h k h1 h2 helig2
          rcases Nat.eq_or_lt_of_le h1 with heq | hlt
          · subst heq
            rw [eligibleStart] at helig2
            simp [htok, hm] at helig2
          · exact h k hlt (by omega) helig2
        · intro h k h1 h2 helig2
          exact h k (by omega) (by omega) helig2

/-- When the outer scan succeeds it returns the lookahead result of the
first eligible start whose lookahead succeeds: every earlier eligible
start in the window was abandoned. -/
theorem scanAux_some_first (tokens : List Token) (name : String) (target : Nat) :
    ∀ (c i : Nat) (info : EqualsTokenInfo), scanAux tokens name target c i = some info →
      ∃ p, i ≤ p ∧ eligibleStart tokens name target p = true ∧
        lookFrom tokens p = some info ∧
        ∀ k, i ≤ k → k < p → eligibleStart tokens name target k = true →
          lookFrom tokens k = none := by
  intro c
  induction c with
  | zero =>
    intro i info h
    simp [scanAux] at h
  | succ c ih =>
    intro i info h
    cases htok : tokens[i]? with
    | none =>
      simp [scanAux, htok] at h
    | some tok =>
      have hlf : lookFrom tokens i =
          lookaheadFrom tokens tok (i + 1) (min (i + MAX_TOKEN_LOOKAHEAD) tokens.length) := by
        simp [lookFrom, htok]
      cases hm : nameMatches name target tok with
      | true =>
        cases hl : lookaheadFrom tokens tok (i + 1) (min (i + MAX_TOKEN_LOOKAHEAD) tokens.length) with
        | some info2 =>
          have heq : info2 = info := by
            have := h
            simp [scanAux, htok, hm, hl] at this
            exact this
          refine ⟨i, le_rfl, ?_, ?_, ?_⟩
          · simp [eligibleStart, htok, hm]
          · rw [hlf, hl, heq]
          · intro k h1 h2 _
            omega
        | none =>
          have h2 : scanAux tokens name target c (i + 1) = some info := by
            have := h
            simpa [scanAux, htok, hm, hl] using this
          obtain ⟨p, hp1, hp2, hp3, hp4⟩ := ih (i + 1) info h2
          refine ⟨p, by omega, hp2, hp3, ?_⟩
          intro k hk1 hk2 helig2
          rcases Nat.eq_or_lt_of_le hk1 with heqk | hltk
          · subst heqk
            rw [hlf, hl]
          · exact hp4 k hltk hk2 helig2
      | false =>
        have h2 : scanAux tokens name target c (i + 1) = some info := by
          have := h
          simpa [scanAux, htok, hm] using this
        obtain ⟨p, hp1, hp2, hp3, hp4⟩ := ih (i + 1) info h2
        refine ⟨p, by omega, hp2, hp3, ?_⟩
        intro k hk1 hk2 helig2
        rcases Nat.eq_or_lt_of_le hk1 with heqk | hltk
        · subst heqk
          rw [eligibleStart] at helig2
          simp [htok, hm] at helig2
        · exact hp4 k hltk hk2 helig2

/-- A lookahead window consisting only of insignificant (or absent) tokens
finds nothing. -/
theorem lookaheadAux_skips (tokens : List Token) (nameTok : Token) :
    ∀ (c j : Nat), (∀ k, j ≤ k → k < j + c → skipAt tokens k = true) →
      lookaheadAux tokens nameTok c j = none := by
  intro c
  induction c with
  | zero =>
    intro j _
    rfl
  | succ c ih =>
    intro j hall
    cases htok : tokens[j]? with
    | none => simp [lookaheadAux, htok]
    | some t =>
      have hs : isInsignificant t.kind = true := by
        have := hall j le_rfl (by omega)
        simpa [skipAt, htok] using this
      have hrec := ih (j + 1) (fun k hk1 hk2 => hall k (by omega) (by omega))
      simp [lookaheadAux, htok, hs, hrec]

/-! ## Claim theorems -/

/-- Claim C1: in a multiline call (start line differs from end line), every
named argument whose assignment symbol is located contributes exactly one
finding — the `MNA001` message at the symbol's `(line, column)` — iff its
two spacing booleans are not both true, and none when both are true; and
`_check_call` emits exactly these per-keyword contributions, every keyword
of the call judged with the same call-level multiline mode. -/
theorem multiline_call_emits_mna001 (tokens : List Token) (node : CallNode)
    (kw : Keyword) (info : EqualsTokenInfo)
    (hm : node.lineno ≠ node.end_lineno)
    (hf : _find_equals_for_keyword tokens kw = some info) :
    check_keyword tokens (isMultiline node) kw =
      (if info.has_space_before && info.has_space_after then none
       else some { line := info.line, col := info.col, msg := mna001_message }) ∧
    _check_call tokens node =
      node.keywords.filterMap (check_keyword tokens (isMultiline node)) := by
  have hmul : isMultiline node = true := by
    simp [isMultiline, bne_iff_ne, hm]
  refine ⟨?_, check_call_eq_filterMap tokens node⟩
  rcases kw with ⟨arg, vl⟩
  cases arg with
  | none => simp [_find_equals_for_keyword] at hf
  | some n =>
    rw [hmul]
    simp only [check_keyword, hf]
    cases hb : info.has_space_before <;> cases hc : info.has_space_after <;> simp

/-- Witness for C1 on the multiline call `foo(\n    a=1,\n    b = 2,\n)`:
the argument `a` has neither space and yields the `MNA001` finding at its
`=`. -/
theorem multiline_call_emits_mna001_witness :
    check_keyword exTokens1 (isMultiline exNode1) { arg := some "a", value_lineno := 2 } =
      some { line := 2, col := 5, msg := mna001_message } ∧
    _check_call exTokens1 exNode1 =
      exNode1.keywords.filterMap (check_keyword exTokens1 (isMultiline exNode1)) := by
  have h := multiline_call_emits_mna001 exTokens1 exNode1
    { arg := some "a", value_lineno := 2 }
    { line := 2, col := 5, has_space_before := false, has_space_after := false }
    (by decide) (by decide)
  exact ⟨h.1, h.2⟩

/-- Claim C2: in a single-line call (start line equals end line), every
named argument whose assignment symbol is located contributes exactly one
finding — the `MNA002` message at the symbol's `(line, column)` — iff
either spacing boolean is true, and none when both are false; and
`_check_call` emits exactly these per-keyword contributions. -/
theorem single_line_call_emits_mna002 (tokens : List Token) (node : CallNode)
    (kw : Keyword) (info : EqualsTokenInfo)
    (hm : node.lineno = node.end_lineno)
    (hf : _find_equals_for_keyword tokens kw = some info) :
    check_keyword tokens (isMultiline node) kw =
      (if info.has_space_before || info.has_space_after then
        some { line := info.line, col := info.col, msg := mna002_message }
       else none) ∧
    _check_call tokens node =
      node.keywords.filterMap (check_keyword tokens (isMultiline node)) := by
  have hmul : isMultiline node = false := by
    simp [isMultiline, hm]
  refine ⟨?_, check_call_eq_filterMap tokens node⟩
  rcases kw with ⟨arg, vl⟩
  cases arg with
  | none => simp [_find_equals_for_keyword] at hf
  | some n =>
    rw [hmul]
    simp only [check_keyword, hf]
    cases hb : info.has_space_before <;> cases hc : info.has_space_after <;> simp

/-- Witness for C2 on the single-line call `foo(a = 1, b=2)`: the argument
`a` has spaces on both sides and yields the `MNA002` finding at its `=`. -/
theorem single_line_call_emits_mna002_witness :
    check_keyword exTokens2 (isMultiline exNode2) { arg := some "a", value_lineno := 1 } =
      some { line := 1, col := 6, msg := mna002_message } ∧
    _check_call exTokens2 exNode2 =
      exNode2.keywords.filterMap (check_keyword exTokens2 (isMultiline exNode2)) := by
  have h := single_line_call_emits_mna002 exTokens2 exNode2
    { arg := some "a", value_lineno := 1 }
    { line := 1, col := 6, has_space_before := true, has_space_after := true }
    (by decide) (by decide)
  exact ⟨h.1, h.2⟩

/-- Claim C3: both `except` clauses of the plugin's `__init__` degrade to
an empty token sequence, and with an empty token sequence the plugin's
`run` yields zero findings for every tree.  (In the embedding both failure
paths are total, so no exception can propagate.) -/
theorem tokenize_failure_no_findings :
    pluginFileTokens TokenizeOutcome.tokenError = [] ∧
    pluginFileTokens TokenizeOutcome.unexpectedError = [] ∧
    (∀ tree : Node, pluginRun { tree := tree, file_tokens := [] } = []) ∧
    (∀ tree : Node, pluginRun (pluginInit tree TokenizeOutcome.tokenError) = []) ∧
    (∀ tree : Node, pluginRun (pluginInit tree TokenizeOutcome.unexpectedError) = []) :=
  ⟨rfl, rfl, fun _ => rfl, fun _ => rfl, fun _ => rfl⟩

/-- Claim C4: an argument-expansion entry (a keyword whose `arg` is
absent) never contributes a finding, in either call mode, for any token
stream; the correlation function does not even locate a symbol for it. -/
theorem expansion_entries_no_finding (tokens : List Token) (m : Bool) (kw : Keyword)
    (h : kw.arg = none) :
    check_keyword tokens m kw = none ∧ _find_equals_for_keyword tokens kw = none := by
  rcases kw with ⟨arg, vl⟩
  cases h
  exact ⟨rfl, rfl⟩

/-- Witness for C4: a `**kwargs` entry in the multiline example yields
nothing. -/
theorem expansion_entries_no_finding_witness :
    check_keyword exTokens1 true { arg := none, value_lineno := 7 } = none ∧
    _find_equals_for_keyword exTokens1 { arg := none, value_lineno := 7 } = none :=
  expansion_entries_no_finding exTokens1 true { arg := none, value_lineno := 7 } rfl

/-- Claim C5: `_check_call` emits the keyword-wise filter-map of the
per-keyword check, so each keyword contributes at most one finding; and a
keyword whose assignment symbol is not located contributes none (the
argument is skipped, and every involved function is total, so nothing is
raised). -/
theorem located_at_most_one_finding (tokens : List Token) (node : CallNode) :
    _check_call tokens node =
      node.keywords.filterMap (check_keyword tokens (isMultiline node)) ∧
    ∀ (kw : Keyword) (m : Bool), _find_equals_for_keyword tokens kw = none →
      check_keyword tokens m kw = none := by
  refine ⟨check_call_eq_filterMap tokens node, ?_⟩
  intro kw m hnone
  rcases kw with ⟨arg, vl⟩
  cases arg with
  | none => rfl
  | some n => simp [check_keyword, hnone]

/-- Witness for C5 on the single-line example, with an argument name that
matches no token: no finding and no error. -/
theorem located_at_most_one_finding_witness :
    _check_call exTokens2 exNode2 =
      exNode2.keywords.filterMap (check_keyword exTokens2 (isMultiline exNode2)) ∧
    check_keyword exTokens2 true { arg := some "zzz", value_lineno := 1 } = none :=
  ⟨(located_at_most_one_finding exTokens2 exNode2).1,
   (located_at_most_one_finding exTokens2 exNode2).2
     { arg := some "zzz", value_lineno := 1 } true (by decide)⟩

/-- Claim C6: two complete consumptions of the plugin's `run` on the same
plugin state yield identical ordered finding lists, because each run
constructs a fresh checker whose `errors` accumulator starts empty; with
nonempty tokens a run is exactly one fresh checker run. -/
theorem analyzer_runs_identical :
    (∀ p : PluginState, (pluginRunTwice p).1 = (pluginRunTwice p).2) ∧
    (∀ (tree : Node) (toks : List Token), (checkerInit tree toks).errors = []) ∧
    (∀ p : PluginState, p.file_tokens.isEmpty = false →
      pluginRun p = (checkerRun (checkerInit p.tree p.file_tokens)).1) := by
  refine ⟨fun _ => rfl, fun _ _ => rfl, ?_⟩
  intro p h
  simp [pluginRun, h]

/-- Witness for C6 on the multiline example wrapped as a one-call tree. -/
theorem analyzer_runs_identical_witness :
    pluginRun { tree := Node.call exNode1 [], file_tokens := exTokens1 } =
      (checkerRun (checkerInit (Node.call exNode1 []) exTokens1)).1 :=
  analyzer_runs_identical.2.2
    { tree := Node.call exNode1 [], file_tokens := exTokens1 } (by decide)

/-- Claim C7 counterexample: in `f(x, x = 1)` the first eligible name
match for the argument `x` is the positional occurrence at index 2, whose
very next significant token is the `,` at index 3 — not an `=` — yet the
argument is not skipped: the scan continues, locates the `=` of the later
occurrence, and in this single-line call a finding is emitted. -/
theorem first_match_abandon_counterexample :
    firstEligible c7Tokens "x" 1 = some 2 ∧
    nextSignificantIdx c7Tokens 2 = some 3 ∧
    c7Tokens[3]? = some (mkTok TokKind.OP "," 1 3 1 4) ∧
    _find_equals_for_keyword c7Tokens { arg := some "x", value_lineno := 1 } =
      some { line := 1, col := 7, has_space_before := true, has_space_after := true } ∧
    check_keyword c7Tokens false { arg := some "x", value_lineno := 1 } =
      some { line := 1, col := 7, msg := mna002_message } := by decide

/-- Claim C7 as amended: the scan inspects eligible name-token starts in
token order; a start whose bounded lookahead does not yield a valid `=`
(for instance because the next significant token is not `=`) is abandoned
and the scan continues with later starts.  The argument is skipped with no
located symbol iff the lookahead of every eligible start fails, and a
located symbol is the lookahead result of the earliest eligible start
whose lookahead succeeds. -/
theorem scan_continues_after_abandoned_start (tokens : List Token) (kw : Keyword)
    (name : String) (ha : kw.arg = some name) (hne : name ≠ "") :
    (_find_equals_for_keyword tokens kw = none ↔
      ∀ k, eligibleStart tokens name kw.value_lineno k = true →
        lookFrom tokens k = none) ∧
    (∀ info, _find_equals_for_keyword tokens kw = some info →
      ∃ p, eligibleStart tokens name kw.value_lineno p = true ∧
        lookFrom tokens p = some info ∧
        ∀ k, k < p → eligibleStart tokens name kw.value_lineno k = true →
          lookFrom tokens k = none) := by
  rcases kw with ⟨arg, vl⟩
  cases ha
  have hfind : _find_equals_for_keyword tokens { arg := some name, value_lineno := vl } =
      scanAux tokens name vl tokens.length 0 := by
    simp [_find_equals_for_keyword, hne]
  constructor
  · rw [hfind, scanAux_none_iff]
    constructor
    · intro h k helig
      by_cases hk : k < tokens.length
      · exact h k (Nat.zero_le k) (by omega) helig
      · rw [eligibleStart_false_of_ge tokens name vl (by omega)] at helig
        simp at helig
    · intro h k _ _ helig
      exact h k helig
  · intro info hinfo
    rw [hfind] at hinfo
    obtain ⟨p, _, hp2, hp3, hp4⟩ :=
      scanAux_some_first tokens name vl tokens.length 0 info hinfo
    exact ⟨p, hp2, hp3, fun k hk helig => hp4 k (Nat.zero_le k) hk helig⟩

/-- Witness for the amended C7 at the `f(x, x = 1)` input. -/
theorem scan_continues_after_abandoned_start_witness :
    (_find_equals_for_keyword c7Tokens { arg := some "x", value_lineno := 1 } = none ↔
      ∀ k, eligibleStart c7Tokens "x" 1 k = true → lookFrom c7Tokens k = none) ∧
    (∀ info, _find_equals_for_keyword c7Tokens { arg := some "x", value_lineno := 1 } =
        some info →
      ∃ p, eligibleStart c7Tokens "x" 1 p = true ∧
        lookFrom c7Tokens p = some info ∧
        ∀ k, k < p → eligibleStart c7Tokens "x" 1 k = true →
          lookFrom c7Tokens k = none) :=
  scan_continues_after_abandoned_start c7Tokens
    { arg := some "x", value_lineno := 1 } "x" rfl (by decide)

/-- Claim C8 counterexample: in `foo(\n    a =#c\n    1)` a comment abuts
the `=` at index 4.  The code computes has-space-after from the comment
token itself and gets `false`, while the claim's formula — position of the
next significant, non-terminating token — skips the comment and the line
break, reaches the `1`, and yields `true`. -/
theorem has_space_after_comment_counterexample :
    c8Tokens[4]? = some c8EqTok ∧
    c8EqTok.kind = TokKind.OP ∧ c8EqTok.string = "=" ∧
    _find_equals_for_keyword c8Tokens { arg := some "a", value_lineno := 3 } =
      some { line := 2, col := 6, has_space_before := true, has_space_after := false } ∧
    claimedHasSpaceAfter c8Tokens 4 c8EqTok = true := by decide

/-- Claim C8 as amended: for a located assignment symbol at index `j`, the
lookahead succeeds with has-space-after equal to `codeHasSpaceAfter`:
false when no token follows the symbol or the immediately following token
is a line break (`NEWLINE` or `NL`), and otherwise true iff the symbol's
end position differs from the start position of the immediately following
token, whatever its kind (a comment is not skipped). -/
theorem lookahead_spacing_from_adjacent_token (tokens : List Token)
    (nameTok eqTok : Token) (j stop : Nat)
    (hj : j < stop) (ht : tokens[j]? = some eqTok)
    (hk : eqTok.kind = TokKind.OP) (hs : eqTok.string = "=")
    (hc : isComparisonContinuation tokens j = false) :
    lookaheadFrom tokens nameTok j stop =
      some { line := eqTok.startPos.1, col := eqTok.startPos.2
             has_space_before := decide (nameTok.endPos ≠ eqTok.startPos)
             has_space_after := codeHasSpaceAfter tokens j eqTok } := by
  have hins : isInsignificant TokKind.OP = false := by decide
  unfold lookaheadFrom
  obtain ⟨c, hcc⟩ : ∃ c, stop - j = c + 1 := ⟨stop - j - 1, by omega⟩
  rw [hcc]
  simp [lookaheadAux, ht, hins, hk, hs, hc]

/-- Witness for the amended C8 at the comment-abutting-`=` input, with the
window the scan would use from the name token at index 3. -/
theorem lookahead_spacing_from_adjacent_token_witness :
    lookaheadFrom c8Tokens (mkTok TokKind.NAME "a" 2 4 2 5) 4 6 =
      some { line := c8EqTok.startPos.1, col := c8EqTok.startPos.2
             has_space_before :=
               decide ((mkTok TokKind.NAME "a" 2 4 2 5).endPos ≠ c8EqTok.startPos)
             has_space_after := codeHasSpaceAfter c8Tokens 4 c8EqTok } :=
  lookahead_spacing_from_adjacent_token c8Tokens (mkTok TokKind.NAME "a" 2 4 2 5)
    c8EqTok 4 6 (by decide) (by decide) (by decide) (by decide) (by decide)

/-- Claim C9: when the lookahead reaches an `=` operator token whose
immediately following token is an operator continuing a multi-character
comparison (text `=`, `!`, `<` or `>`), the match is rejected and the
lookahead launched from this scan start yields nothing, so no finding can
arise from this start. -/
theorem comparison_continuation_rejected (tokens : List Token)
    (nameTok eqTok afterTok : Token) (j stop : Nat)
    (hj : j < stop) (ht : tokens[j]? = some eqTok)
    (hk : eqTok.kind = TokKind.OP) (hs : eqTok.string = "=")
    (ht2 : tokens[j + 1]? = some afterTok) (hk2 : afterTok.kind = TokKind.OP)
    (hs2 : afterTok.string = "=" ∨ afterTok.string = "!" ∨
      afterTok.string = "<" ∨ afterTok.string = ">") :
    lookaheadFrom tokens nameTok j stop = none := by
  have hins : isInsignificant TokKind.OP = false := by decide
  have hcomp : isComparisonContinuation tokens j = true := by
    simp [isComparisonContinuation, ht2, hk2, hs2]
  unfold lookaheadFrom
  obtain ⟨c, hcc⟩ : ∃ c, stop - j = c + 1 := ⟨stop - j - 1, by omega⟩
  rw [hcc]
  simp [lookaheadAux, ht, hins, hk, hs, hcomp]

/-- Witness for C9: `a` followed by two `=` operator tokens; the lookahead
from the start at index 0 rejects the match. -/
theorem comparison_continuation_rejected_witness :
    lookaheadFrom c9Tokens (mkTok TokKind.NAME "a" 1 0 1 1) 1 3 = none :=
  comparison_continuation_rejected c9Tokens (mkTok TokKind.NAME "a" 1 0 1 1)
    (mkTok TokKind.OP "=" 1 1 1 2) (mkTok TokKind.OP "=" 1 2 1 3) 1 3
    (by decide) (by decide) (by decide) (by decide) (by decide) (by decide)
    (Or.inl (by decide))

/-- Claim C10: `MAX_TOKEN_LOOKAHEAD` is 3, so the lookahead window
launched from a matching name token at index `i` holds at most the two
indices `i + 1` and `i + 2`; consequently, when both are insignificant (or
absent) — e.g. a comment followed by a line break — the window is consumed
without locating the `=`, and the lookahead from this occurrence yields
nothing. -/
theorem bounded_lookahead_window (tokens : List Token) (nameTok : Token) (i : Nat)
    (h1 : skipAt tokens (i + 1) = true) (h2 : skipAt tokens (i + 2) = true) :
    MAX_TOKEN_LOOKAHEAD = 3 ∧
    min (i + MAX_TOKEN_LOOKAHEAD) tokens.length - (i + 1) ≤ 2 ∧
    lookaheadFrom tokens nameTok (i + 1)
      (min (i + MAX_TOKEN_LOOKAHEAD) tokens.length) = none := by
  have hmax : MAX_TOKEN_LOOKAHEAD = 3 := rfl
  refine ⟨rfl, by rw [hmax]; omega, ?_⟩
  unfold lookaheadFrom
  apply lookaheadAux_skips
  intro k hk1 hk2
  rw [hmax] at hk2
  have : k = i + 1 ∨ k = i + 2 := by omega
  rcases this with rfl | rfl
  · exact h1
  · exact h2

/-- Witness for C10: the name `a` separated from its `=` by a comment and
a line break; the window from index 0 finds nothing. -/
theorem bounded_lookahead_window_witness :
    MAX_TOKEN_LOOKAHEAD = 3 ∧
    min (0 + MAX_TOKEN_LOOKAHEAD) c10Tokens.length - (0 + 1) ≤ 2 ∧
    lookaheadFrom c10Tokens (mkTok TokKind.NAME "a" 1 0 1 1) (0 + 1)
      (min (0 + MAX_TOKEN_LOOKAHEAD) c10Tokens.length) = none :=
  bounded_lookahead_window c10Tokens (mkTok TokKind.NAME "a" 1 0 1 1) 0
    (by decide) (by decide)
